import Mathlib

/-!
Verification of the beacon lifecycle coordinator of boomerang.js
(src/boomerang.js), via a shallow embedding of the relevant functions:
the variable store and payload assembly (getVarsOfPriority,
getUriEncodedVar, encodeURIComponent), the coordinator state machine
(sendBeacon / real_sendBeacon), the transport selection
(sendBeaconData / sendXhrPostBeacon), the event bus (subscribe /
fireEvent) and addVar.

JavaScript objects are modelled as insertion-ordered association lists
(keys unique when built by assignment), matching the for-in enumeration
order of non-index string keys.  JavaScript values relevant to the
claims are modelled by an inductive type with undefined, null, strings
and integer-valued numbers.  Browser primitives (plugins, DOM
availability, navigator.sendBeacon, XMLHttpRequest, Image, the RegExp
engine) are supplied as an explicit environment, and the externally
observable effects (events fired, callbacks scheduled via setImmediate,
transport invocations) are recorded in the state.
-/

namespace Boomerang

/-- JavaScript values as used by the beacon variable store: undefined,
null, strings and (integer-valued) numbers. -/
inductive JSVal where
  | undef : JSVal
  | null : JSVal
  | str : String → JSVal
  | num : Int → JSVal
  deriving DecidableEq, Repr

/-- A JavaScript object: insertion-ordered association list with unique
keys (when built by property assignment). -/
abbrev JSObj := List (String × JSVal)

/-- `o.hasOwnProperty(k)`. -/
def objHas (o : JSObj) (k : String) : Bool :=
  o.any (fun p => p.1 == k)

/-- `o[k]` (undefined when absent). -/
def objGet (o : JSObj) (k : String) : JSVal :=
  match o.find? (fun p => p.1 == k) with
  | some p => p.2
  | none => JSVal.undef

/-- `delete o[k]`. -/
def objDel (o : JSObj) (k : String) : JSObj :=
  o.filter (fun p => p.1 != k)

/-- `o[k] = v`: overwrite in place when present, else append. -/
def objSet (o : JSObj) (k : String) (v : JSVal) : JSObj :=
  if objHas o k then o.map (fun p => if p.1 == k then (k, v) else p)
  else o ++ [(k, v)]

/-- for-in enumeration of the object keys. -/
def objKeys (o : JSObj) : List String :=
  o.map Prod.fst

/-- `delete o[k]` for each k of the list, in order. -/
def objDelList (o : JSObj) (ks : List String) : JSObj :=
  ks.foldl objDel o

/-- JavaScript truthiness of a value. -/
def truthyVal : JSVal → Bool
  | JSVal.undef => false
  | JSVal.null => false
  | JSVal.str s => s != ""
  | JSVal.num n => n != 0

/-- JavaScript ToString coercion for the modelled values. -/
def jsToString : JSVal → String
  | JSVal.undef => "undefined"
  | JSVal.null => "null"
  | JSVal.str s => s
  | JSVal.num n => toString n

/-- Characters left unescaped by encodeURIComponent:
A-Z a-z 0-9 - _ . ! ~ * apostrophe ( ) . -/
def isURIUnescaped (c : Char) : Bool :=
  c.isAlphanum || c == '-' || c == '_' || c == '.' || c == '!' ||
    c == '~' || c == '*' || c.toNat == 39 || c == '(' || c == ')'

/-- Upper-case hexadecimal digit. -/
def hexDigitChar (n : Nat) : Char :=
  if n < 10 then Char.ofNat (48 + n) else Char.ofNat (55 + n)

/-- UTF-8 bytes of a Unicode code point. -/
def utf8Bytes (n : Nat) : List Nat :=
  if n < 128 then [n]
  else if n < 2048 then [192 + n / 64, 128 + n % 64]
  else if n < 65536 then [224 + n / 4096, 128 + (n / 64) % 64, 128 + n % 64]
  else [240 + n / 262144, 128 + (n / 4096) % 64, 128 + (n / 64) % 64, 128 + n % 64]

/-- Percent-escape of one byte, e.g. 47 becomes "%2F". -/
def pctByte (b : Nat) : String :=
  "%" ++ (hexDigitChar (b / 16)).toString ++ (hexDigitChar (b % 16)).toString

/-- The ECMAScript encodeURIComponent function. -/
def encodeURIComponent (s : String) : String :=
  String.join (s.toList.map (fun c =>
    if isURIUnescaped c then c.toString
    else String.join ((utf8Bytes c.toNat).map pctByte)))

/-- BOOMR.getUriEncodedVar: URI-encoded name=value pair.  undefined and
null become the empty string.  (Object values, serialized via
BOOMR.utils.serializeForUrl in the source, do not occur in the modelled
value domain.) -/
def getUriEncodedVar (name : String) (value : JSVal) : String :=
  let value := match value with
    | JSVal.undef => JSVal.str ""
    | JSVal.null => JSVal.str ""
    | v => v
  encodeURIComponent name ++ "=" ++ encodeURIComponent (jsToString value)

/-- impl.varPriority: the two priority buckets, each a JS object keyed
by variable name (modelled by its insertion-ordered key list). -/
structure VarPriority where
  neg : List String
  pos : List String
  deriving DecidableEq, Repr

/-- The value passed by getVarsOfPriority to getUriEncodedVar:
`typeof vars[name] === "undefined" ? "" : vars[name]`. -/
def gvopVal (vars : JSObj) (name : String) : JSVal :=
  match objGet vars name with
  | JSVal.undef => JSVal.str ""
  | v => v

/-- The loop body of BOOMR.getVarsOfPriority: if the var is set, push
its URI-encoded form (an undefined value is encoded as "") and, for
priority -1 or 1, delete the name from vars so it is not also added to
the non-prioritized list. -/
def gvopStep (pri : Int) (acc : List String × JSObj) (name : String) :
    List String × JSObj :=
  if objHas acc.2 name then
    (acc.1 ++ [getUriEncodedVar name (gvopVal acc.2 name)],
      if pri != 0 then objDel acc.2 name else acc.2)
  else acc

/-- BOOMR.getVarsOfPriority: for priority -1 or 1 iterate that priority
bucket, for priority 0 iterate vars itself (any other priority indexes
a missing bucket, so the for-in loop iterates nothing).  Returns the
URI-encoded list together with the (possibly mutated) vars object. -/
def getVarsOfPriority (vp : VarPriority) (vars : JSObj) (pri : Int) :
    List String × JSObj :=
  let iterVars :=
    if pri == -1 then vp.neg
    else if pri == 1 then vp.pos
    else if pri == 0 then objKeys vars
    else []
  iterVars.foldl (gvopStep pri) ([], vars)

/-- Payload assembly of BOOMR.sendBeaconData (lines 3411-3418): the
high- and low-priority lists are extracted first (removing those vars
from data), then the three lists are merged and joined with &. -/
def assembleParams (vp : VarPriority) (data : JSObj) : String :=
  let urlFirst := getVarsOfPriority vp data (-1)
  let urlLast := getVarsOfPriority vp urlFirst.2 1
  let params := urlFirst.1 ++ (getVarsOfPriority vp urlLast.2 0).1 ++ urlLast.1
  String.intercalate "&" params

/-- The priority buckets of the specification example. -/
def exampleVP : VarPriority :=
  { neg := ["a", "b"], pos := ["z"] }

/-- The vars of the specification example. -/
def exampleVars : JSObj :=
  [("a", JSVal.num 1), ("m", JSVal.num 2), ("b", JSVal.num 3), ("z", JSVal.num 4)]

/-- BOOMR.constants.BEACON_TYPE_SPAS. -/
def beaconTypeSpas : List String := ["spa", "spa_hard"]

/-- BOOMR.constants.MAX_GET_LENGTH. -/
def maxGetLength : Nat := 2000

/-- BOOMR.utils.inArray: false when val is undefined, else a linear
scan with strict equality against the string array elements. -/
def jsInArray (v : JSVal) (ary : List String) : Bool :=
  match v with
  | JSVal.undef => false
  | _ => ary.any (fun s => v == JSVal.str s)

/-- Does pat occur at the head of l. -/
def listStartsWith : List Char → List Char → Bool
  | [], _ => true
  | _ :: _, [] => false
  | p :: ps, c :: cs => p == c && listStartsWith ps cs

/-- Does pat occur anywhere in l (String.indexOf(pat) !== -1). -/
def containsSubList (pat : List Char) : List Char → Bool
  | [] => pat.isEmpty
  | c :: cs => listStartsWith pat (c :: cs) || containsSubList pat cs

/-- JavaScript s.indexOf(pat) !== -1. -/
def containsSub (s pat : String) : Bool :=
  containsSubList pat.toList s.toList

/-- Base-36 digit as produced by Number.prototype.toString(36). -/
def base36Digit (n : Nat) : Char :=
  if n < 10 then Char.ofNat (48 + n) else Char.ofNat (87 + n)

/-- Accumulating base-36 conversion. -/
def toBase36Aux (n : Nat) (acc : List Char) : List Char :=
  let acc := base36Digit (n % 36) :: acc
  if h : n / 36 = 0 then acc else toBase36Aux (n / 36) acc
termination_by n
decreasing_by
  exact Nat.div_lt_self (Nat.pos_of_ne_zero (fun h0 => h (by simp [h0]))) (by omega)

/-- Number.prototype.toString(36) for naturals. -/
def toBase36 (n : Nat) : String :=
  String.mk (toBase36Aux n [])

/-- Math.round(x / 1000) for a natural millisecond timestamp. -/
def roundDiv1000 (n : Nat) : Nat :=
  (n + 500) / 1000

/-- Everything of the string from the first # on removed
(url.replace of a hash pattern). -/
def stripHash (s : String) : String :=
  String.mk (s.toList.takeWhile (fun c => c != '#'))

/-- url.replace of the query-string pattern with "?qs-redacted". -/
def stripQuery (s : String) : String :=
  if containsSub s "?" then
    String.mk (s.toList.takeWhile (fun c => c != '?')) ++ "?qs-redacted"
  else s

/-- BOOMR.utils.cleanupURL without a urlLimit: falsy input becomes "";
the query string is redacted when strip_query_string is configured. -/
def cleanupURL (stripQS : Bool) (url : String) : String :=
  if url == "" then ""
  else if stripQS then stripQuery url
  else url

/-- One invocation of a transport mechanism by sendBeaconData, with its
destination, payload and success. -/
inductive TransportAction where
  | apiBeacon : String → String → Bool → TransportAction
  | image : String → TransportAction
  | imageCtorFailed : TransportAction
  | xhrPost : String → String → Bool → TransportAction
  | xhrFrame : String → String → Bool → TransportAction
  deriving DecidableEq, Repr

/-- Result of a coordinator call: a returned boolean, or an exception
propagated to the caller. -/
inductive RSBResult where
  | ret : Bool → RSBResult
  | threw : RSBResult
  deriving DecidableEq, Repr

/-- The browser environment and external collaborators consulted by the
coordinator: plugin readiness, DOM liveness, document URL, session and
visibility data, navigator strings, the RegExp engine, and the
availability/behaviour of the three transport primitives. -/
structure Env where
  pluginsComplete : JSObj → Bool
  domAvailable : Bool
  dURL : String
  stripQueryString : Bool
  version : String
  sessionEnabled : Bool
  sessionID : String
  sessionStart : Nat
  sessionLength : Int
  visState : String
  lastVisible : Int
  lastHidden : Int
  now : Int
  navPlatform : String
  navVendor : String
  pageId : String
  isLoaderFrame : Bool
  rateLimited : Bool
  regexMatch : String → String → Bool
  apiBeaconAvailable : Bool
  apiBeaconAccepts : Bool
  xhrAvailable : Bool
  imageCtorThrows : Bool
  primaryXhrThrows : Bool
  iframeXhrThrows : Bool

/-- The mutable impl/BOOMR state of the coordinator, together with
recorded observable effects: scheduled is the number of real_sendBeacon
callbacks enqueued via setImmediate, pageLoadScheduled the number of
scheduled page_load_beacon notifications, firedEvents the events fired
(with their data), transportActions the transport invocations and
handoffs the number of snapshots handed to sendBeaconData by
real_sendBeacon. -/
structure State where
  beaconQueued : Bool
  scheduled : Nat
  vars : JSObj
  singleBeaconVars : List String
  varPriority : VarPriority
  errors : List (String × Nat)
  r : String
  hasSentPageLoadBeacon : Bool
  beaconsSent : Nat
  beacon_url : String
  beacon_url_override : String
  beacon_urls_allowed : List String
  beacon_type : String
  beacon_url_force_https : Bool
  beacon_auth_token : Option String
  beacon_disable_sendbeacon : Bool
  pageLoadScheduled : Nat
  firedEvents : List (String × JSObj)
  transportActions : List TransportAction
  handoffs : Nat

/-- The pristine impl state (page start). -/
def initState : State :=
  { beaconQueued := false
    scheduled := 0
    vars := []
    singleBeaconVars := []
    varPriority := { neg := [], pos := [] }
    errors := []
    r := ""
    hasSentPageLoadBeacon := false
    beaconsSent := 0
    beacon_url := ""
    beacon_url_override := ""
    beacon_urls_allowed := []
    beacon_type := ""
    beacon_url_force_https := false
    beacon_auth_token := none
    beacon_disable_sendbeacon := false
    pageLoadScheduled := 0
    firedEvents := []
    transportActions := []
    handoffs := 0 }

/-- impl.beaconUrlAllowed: vacuously true with an empty allow-list,
else some configured regex must match the URL (the RegExp engine is the
environment oracle regexMatch). -/
def beaconUrlAllowed (env : Env) (allowed : List String) (url : String) : Bool :=
  if allowed.isEmpty then true
  else allowed.any (fun p => env.regexMatch p url)

/-- BOOMR.sendBeacon: remember a beacon URL override if given; if no
beacon is queued, set the queued flag and schedule real_sendBeacon via
setImmediate; always return true. -/
def sendBeacon (st : State) (override : String) : Bool × State :=
  let st := if override != "" then { st with beacon_url_override := override } else st
  if !st.beaconQueued then
    (true, { st with beaconQueued := true, scheduled := st.scheduled + 1 })
  else (true, st)

/-- The xhr / iframe-xhr tail of BOOMR.sendBeaconData, including the
image path: an exception from the primary XMLHttpRequest is caught and
answered with one retry through the boomerang_frame XMLHttpRequest,
which is not guarded, so its exception propagates.  An exception
constructing Image is caught and reported as return false. -/
def sendBeaconDataFallback (env : Env) (st : State) (url body : String)
    (useImg : Bool) : RSBResult × State :=
  let useImg := if !env.xhrAvailable then true else useImg
  if useImg then
    if env.imageCtorThrows then
      (RSBResult.ret false,
        { st with transportActions := st.transportActions ++ [TransportAction.imageCtorFailed] })
    else
      (RSBResult.ret true,
        { st with transportActions := st.transportActions ++ [TransportAction.image url] })
  else
    if env.primaryXhrThrows then
      let st := { st with transportActions :=
        st.transportActions ++ [TransportAction.xhrPost st.beacon_url body false] }
      if env.iframeXhrThrows then
        (RSBResult.threw,
          { st with transportActions :=
            st.transportActions ++ [TransportAction.xhrFrame st.beacon_url body false] })
      else
        (RSBResult.ret true,
          { st with transportActions :=
            st.transportActions ++ [TransportAction.xhrFrame st.beacon_url body true] })
    else
      (RSBResult.ret true,
        { st with transportActions :=
          st.transportActions ++ [TransportAction.xhrPost st.beacon_url body true] })

/-- The part of BOOMR.sendBeaconData after the URL and emptiness checks
(the effective beacon_url has already been assigned into the state):
fire the beacon event, assemble the parameter string, force https for a
protocol-relative URL when configured, build the GET URL, append
http.initiator=page to the joined parameters when the string does not
already contain http.initiator, choose GET-image versus POST-xhr, and
try navigator.sendBeacon first (appending sb=1) unless GET was forced,
an auth token is set or the primitive is disabled. -/
def sendBeaconDataCore (env : Env) (st : State) (data : JSObj) : RSBResult × State :=
  let st := { st with firedEvents := st.firedEvents ++ [("beacon", data)] }
  let params := assembleParams st.varPriority data
  let burl := if st.beacon_url_force_https && "//".isPrefixOf st.beacon_url
    then "https:" ++ st.beacon_url else st.beacon_url
  let st := { st with beacon_url := burl }
  let url := burl ++ (if containsSub burl "?" then "&" else "?") ++ params
  let body := if containsSub params "http.initiator" then params
    else params ++ "&http.initiator=page"
  let useImg :=
    if st.beacon_type == "GET" then true
    else if st.beacon_type == "POST" || url.length > maxGetLength then false
    else true
  if env.apiBeaconAvailable && st.beacon_type != "GET" &&
      st.beacon_auth_token == none && !st.beacon_disable_sendbeacon then
    let apiBody := body ++ "&sb=1"
    if env.apiBeaconAccepts then
      (RSBResult.ret true,
        { st with transportActions :=
          st.transportActions ++ [TransportAction.apiBeacon burl apiBody true] })
    else
      sendBeaconDataFallback env
        { st with transportActions :=
          st.transportActions ++ [TransportAction.apiBeacon burl apiBody false] }
        url body useImg
  else sendBeaconDataFallback env st url body useImg

/-- BOOMR.sendBeaconData: resolve the override into beacon_url, check
that a URL is configured, that it passes the allow-list and the
(mis-typed) emptiness check on data, then run the assembly-and-send
core. -/
def sendBeaconData (env : Env) (st : State) (data : JSObj) : RSBResult × State :=
  let burl := if st.beacon_url_override != "" then st.beacon_url_override else st.beacon_url
  let st := { st with beacon_url := burl }
  if burl == "" then (RSBResult.ret false, st)
  else if !(beaconUrlAllowed env st.beacon_urls_allowed burl) then (RSBResult.ret false, st)
  else if objGet data "length" == JSVal.num 0 then (RSBResult.ret false, st)
  else sendBeaconDataCore env st data

/-- The pgu / u / r population of real_sendBeacon (lines 3255-3276):
set pgu from d.URL (hash kept for SPA beacons) when falsy, clean it up,
set u from pgu when falsy or on a SPA beacon, drop pgu when equal to u,
and set or delete r from the stored referrer. -/
def rsbURLVars (env : Env) (refr : String) (isSPA : Bool) (vars : JSObj) : JSObj :=
  let vars := if !(truthyVal (objGet vars "pgu")) then
      objSet vars "pgu" (JSVal.str (if isSPA then env.dURL else stripHash env.dURL))
    else vars
  let vars := objSet vars "pgu"
    (JSVal.str (cleanupURL env.stripQueryString (jsToString (objGet vars "pgu"))))
  let vars := if !(truthyVal (objGet vars "u")) || isSPA then
      objSet vars "u" (objGet vars "pgu")
    else vars
  let vars := if objGet vars "pgu" == objGet vars "u" then objDel vars "pgu" else vars
  if refr != "" then objSet vars "r" (JSVal.str (cleanupURL env.stripQueryString refr))
  else objDel vars "r"

/-- The version and session fields of real_sendBeacon (lines 3278-3284). -/
def rsbSessionVars (env : Env) (vars : JSObj) : JSObj :=
  let vars := objSet vars "v" (JSVal.str env.version)
  if env.sessionEnabled then
    let vars := objSet vars "rt.si"
      (JSVal.str (env.sessionID ++ "-" ++ toBase36 (roundDiv1000 env.sessionStart)))
    let vars := objSet vars "rt.ss" (JSVal.num (Int.ofNat env.sessionStart))
    objSet vars "rt.sl" (JSVal.num env.sessionLength)
  else vars

/-- The visibility fields of real_sendBeacon (lines 3286-3294). -/
def rsbVisVars (env : Env) (vars : JSObj) : JSObj :=
  if env.visState != "" then
    let vars := objSet vars "vis.st" (JSVal.str env.visState)
    let vars := if env.lastVisible != 0 then
        objSet vars "vis.lv" (JSVal.num (env.now - env.lastVisible))
      else vars
    if env.lastHidden != 0 then
      objSet vars "vis.lh" (JSVal.num (env.now - env.lastHidden))
    else vars
  else vars

/-- The platform, vendor, page id, beacon number and loader-frame
fields of real_sendBeacon (lines 3296-3309). -/
def rsbPlatformVars (env : Env) (n : Nat) (vars : JSObj) : JSObj :=
  let vars := objSet vars "ua.plt" (JSVal.str env.navPlatform)
  let vars := objSet vars "ua.vnd" (JSVal.str env.navVendor)
  let vars := if env.pageId != "" then objSet vars "pid" (JSVal.str env.pageId) else vars
  let vars := objSet vars "n" (JSVal.num (Int.ofNat n))
  if env.isLoaderFrame then objSet vars "if" (JSVal.str "") else vars

/-- The errors field of real_sendBeacon (lines 3311-3319): the
accumulated error tally joined with newlines (a count above one is
rendered as a multiplier suffix). -/
def rsbErrorsVars (errors : List (String × Nat)) (vars : JSObj) : JSObj :=
  let errs := errors.map (fun p =>
    p.1 ++ (if p.2 > 1 then " (*" ++ toString p.2 ++ ")" else ""))
  if errs.length > 0 then
    objSet vars "errors" (JSVal.str (String.intercalate "\n" errs))
  else vars

/-- Is this flush page-load-classified: http.initiator undefined, or a
recognized SPA navigation kind (lines 3252-3253). -/
def isPageLoadOf (vars : JSObj) : Bool :=
  (objGet vars "http.initiator" == JSVal.undef) ||
    jsInArray (objGet vars "http.initiator") beaconTypeSpas

/-- `return true` paths of real_sendBeacon ignore the value returned by
sendBeaconData; an exception would propagate. -/
def rsbRet : RSBResult → RSBResult
  | RSBResult.threw => RSBResult.threw
  | RSBResult.ret _ => RSBResult.ret true

/-- The body of BOOMR.real_sendBeacon after the queued-flag, plugin and
DOM guards have passed: populate the derived fields, assign the beacon
number from the incremented beaconsSent counter, serialize and clear
the error tally, fire before_beacon, snapshot the vars, remove qt, pgu
and the single-use vars from the live store, clear the single-use set,
latch hasSentPageLoadBeacon and schedule the page_load_beacon event on
the first page-load-classified flush, stop if rate limited, else hand
the snapshot to sendBeaconData and return true (or propagate its
exception).  Mutation of the live vars by before_beacon or beacon
subscribers is not modelled (no subscribers are registered in the
verified scenarios). -/
def rsbDerivedVars (env : Env) (st : State) : JSObj :=
  rsbErrorsVars st.errors
    (rsbPlatformVars env (st.beaconsSent + 1)
      (rsbVisVars env
        (rsbSessionVars env
          (rsbURLVars env st.r
            (jsInArray (objGet st.vars "http.initiator") beaconTypeSpas) st.vars))))

/-- The flush body proper: derived fields, before_beacon, snapshot,
single-use removal, page-load latch, rate-limit gate, transport
handoff. -/
def rsb_afterGuards (env : Env) (st : State) : RSBResult × State :=
  let newBeaconsSent := st.beaconsSent + 1
  let vars2 := rsbDerivedVars env st
  let varsSent := vars2
  let varsLive := objDelList (objDel (objDel vars2 "qt") "pgu") st.singleBeaconVars
  let doLatch := !st.hasSentPageLoadBeacon && isPageLoadOf st.vars
  let st1 : State := { st with
    vars := varsLive
    singleBeaconVars := []
    errors := []
    beaconsSent := newBeaconsSent
    hasSentPageLoadBeacon := st.hasSentPageLoadBeacon || doLatch
    pageLoadScheduled := st.pageLoadScheduled + (if doLatch then 1 else 0)
    firedEvents := st.firedEvents ++ [("before_beacon", vars2)] }
  if env.rateLimited then (RSBResult.ret false, st1)
  else
    let r := sendBeaconData env { st1 with handoffs := st1.handoffs + 1 } varsSent
    (rsbRet r.1, r.2)

/-- BOOMR.real_sendBeacon: return false when no beacon is queued, clear
the queued flag, return false when some enabled plugin is not complete
or the DOM is no longer available, else run the flush body. -/
def real_sendBeacon (env : Env) (st : State) : RSBResult × State :=
  if !st.beaconQueued then (RSBResult.ret false, st)
  else
    let st := { st with beaconQueued := false }
    if !(env.pluginsComplete st.vars) then (RSBResult.ret false, st)
    else if !env.domAvailable then (RSBResult.ret false, st)
    else rsb_afterGuards env st

/-- The argument of BOOMR.addVar: a single string name, or a bulk
object of key/value pairs. -/
inductive AddVarName where
  | str : String → AddVarName
  | obj : JSObj → AddVarName

/-- The JavaScript property-key coercion of an addVar name argument: a
plain object stringifies to "[object Object]". -/
def propKey : AddVarName → String
  | AddVarName.str s => s
  | AddVarName.obj _ => "[object Object]"

/-- Insertion into a JS object used as a set of names
(impl.singleBeaconVars[name] = 1). -/
def sbAdd (l : List String) (k : String) : List String :=
  if l.contains k then l else l ++ [k]

/-- BOOMR.addVar: set the named var, or merge all pairs of a bulk
object; when singleBeacon is truthy, store the (coerced) name argument
into impl.singleBeaconVars. -/
def addVar (st : State) (name : AddVarName) (value : JSVal)
    (singleBeacon : Bool) : State :=
  let st := match name with
    | AddVarName.str s => { st with vars := objSet st.vars s value }
    | AddVarName.obj o =>
        { st with vars := o.foldl (fun a p => objSet a p.1 p.2) st.vars }
  if singleBeacon then
    { st with singleBeaconVars := sbAdd st.singleBeaconVars (propKey name) }
  else st

/-- A value compared by the JavaScript strict-equality the subscribe
dedup check uses: undefined, null, or an object identified by its
reference.  (The other falsy primitives behave like undefined and null
for the modelled check.) -/
inductive Ref where
  | undef : Ref
  | null : Ref
  | obj : Nat → Ref
  deriving DecidableEq, Repr

/-- JavaScript truthiness of a Ref. -/
def truthyRef : Ref → Bool
  | Ref.obj _ => true
  | _ => false

/-- One subscriber record of the event bus; fn is the identity of the
callback function. -/
structure Handler where
  fn : Nat
  cb_data : Ref
  scope : Ref
  once : Bool
  deriving DecidableEq, Repr

/-- The event bus: event-name to subscriber list, plus an allocator for
the fresh object created by the `cb_data || {}` normalization. -/
structure Bus where
  events : List (String × List Handler)
  nextRef : Nat
  deriving DecidableEq, Repr

/-- The empty bus. -/
def emptyBus : Bus :=
  { events := [], nextRef := 0 }

/-- ASCII lower-casing of one character (String.prototype.toLowerCase
restricted to the ASCII event names the bus uses). -/
def jsToLowerChar (c : Char) : Char :=
  if 65 ≤ c.toNat && c.toNat ≤ 90 then Char.ofNat (c.toNat + 32) else c

/-- e_name.toLowerCase() for ASCII event names. -/
def jsToLower (s : String) : String :=
  String.mk (s.toList.map jsToLowerChar)

/-- impl.translate_events: map old event names to the updated ones. -/
def translateEvent (s : String) : String :=
  if s == "onbeacon" then "beacon"
  else if s == "onconfig" then "config"
  else if s == "onerror" then "error"
  else if s == "onxhrerror" then "xhr_error"
  else s

/-- Event-name normalization shared by subscribe and fireEvent:
lower-case, then legacy-name translation. -/
def normEventName (s : String) : String :=
  translateEvent (jsToLower s)

/-- Does the bus know this (normalized) event name. -/
def busHasEvent (b : Bus) (n : String) : Bool :=
  b.events.any (fun p => p.1 == n)

/-- The subscriber list of a (normalized) event name. -/
def busHandlers (b : Bus) (n : String) : List Handler :=
  match b.events.find? (fun p => p.1 == n) with
  | some p => p.2
  | none => []

/-- Replace the subscriber list of a (normalized) event name. -/
def busSetHandlers (b : Bus) (n : String) (hs : List Handler) : Bus :=
  if busHasEvent b n then
    { b with events := b.events.map (fun p => if p.1 == n then (n, hs) else p) }
  else { b with events := b.events ++ [(n, hs)] }

/-- BOOMR.subscribe (the registry part; attaching native lifecycle
listeners for page_ready / page_unload / before_unload is a browser
side effect outside the model): normalize the name, auto-register
unknown names, return unchanged when some existing record passes the
strict-equality dedup check against the raw arguments, else push a
record with cb_data defaulted to a fresh empty object and scope
defaulted to null. -/
def subscribe (b : Bus) (e_name : String) (fn : Nat) (cb_data cb_scope : Ref)
    (once : Bool) : Bus :=
  let n := normEventName e_name
  let b := if !(busHasEvent b n) then busSetHandlers b n [] else b
  let ev := busHandlers b n
  if ev.any (fun h => h.fn == fn && h.cb_data == cb_data && h.scope == cb_scope) then b
  else
    let hrec : Handler :=
      { fn := fn
        cb_data := if truthyRef cb_data then cb_data else Ref.obj b.nextRef
        scope := if truthyRef cb_scope then cb_scope else Ref.null
        once := once }
    { busSetHandlers b n (ev ++ [hrec]) with nextRef := b.nextRef + 1 }

/-- The subscriber records invoked by one impl.fireEvent call: exactly
the records registered (for the normalized name) when the fire began,
in order; exceptions are caught per record, so every record is invoked. -/
def fireEventHandlers (b : Bus) (e_name : String) : List Handler :=
  let n := normEventName e_name
  if busHasEvent b n then busHandlers b n else []

/-- The bus after one impl.fireEvent call: the once records present at
fire time are pruned after the invocation pass. -/
def fireEventBus (b : Bus) (e_name : String) : Bus :=
  let n := normEventName e_name
  if busHasEvent b n then
    busSetHandlers b n ((busHandlers b n).filter (fun h => !h.once))
  else b

/-- How many times one fire of the event invokes the callback fn. -/
def fireCount (b : Bus) (e_name : String) (fn : Nat) : Nat :=
  ((fireEventHandlers b e_name).filter (fun h => h.fn == fn)).length

/-- Number of XMLHttpRequest construction-and-send attempts among the
recorded transport invocations. -/
def countXhr (l : List TransportAction) : Nat :=
  (l.filter (fun a =>
    match a with
    | TransportAction.xhrPost _ _ _ => true
    | TransportAction.xhrFrame _ _ _ => true
    | _ => false)).length

/-- A benign browser environment: all plugins complete, DOM alive, no
session, no visibility data, image transport working, nothing throwing,
navigator.sendBeacon absent. -/
def envBase : Env :=
  { pluginsComplete := fun _ => true
    domAvailable := true
    dURL := "http://page.example/"
    stripQueryString := false
    version := "1.0"
    sessionEnabled := false
    sessionID := ""
    sessionStart := 0
    sessionLength := 0
    visState := ""
    lastVisible := 0
    lastHidden := 0
    now := 0
    navPlatform := "plt"
    navVendor := "vnd"
    pageId := ""
    isLoaderFrame := false
    rateLimited := false
    regexMatch := fun _ _ => true
    apiBeaconAvailable := false
    apiBeaconAccepts := false
    xhrAvailable := true
    imageCtorThrows := false
    primaryXhrThrows := false
    iframeXhrThrows := false }

/-- C4 counterexample environment: rate limited. -/
def envRateLimited : Env :=
  { envBase with rateLimited := true }

/-- C8 environments: both XMLHttpRequest contexts throw on open/send,
or only the primary one. -/
def envBothXhrThrow : Env :=
  { envBase with primaryXhrThrows := true, iframeXhrThrows := true }

/-- C8 witness environment: primary context throws, iframe one works. -/
def envPrimaryXhrThrows : Env :=
  { envBase with primaryXhrThrows := true }

/-- C9 environment: navigator.sendBeacon available and accepting. -/
def envApiOK : Env :=
  { envBase with apiBeaconAvailable := true, apiBeaconAccepts := true }

/-- A flush-ready state for http://e/ with a chosen beacon_type and
priority buckets. -/
def stFor (btype : String) (vp : VarPriority) : State :=
  { initState with
    beacon_url := "http://e/", beacon_type := btype, varPriority := vp }

/-- A state ready to flush to http://e/ with the given beacon_type and
data-independent defaults. -/
def stReady (btype : String) : State :=
  { initState with beaconQueued := true, beacon_url := "http://e/", beacon_type := btype }

/-- C4 counterexample state: a queued flush with one var. -/
def stC4 : State :=
  { stReady "" with vars := [("a", JSVal.num 1)] }

/-- C7 counterexample state: a queued flush whose http.initiator is the
empty string. -/
def stC7 : State :=
  { stReady "" with vars := [("http.initiator", JSVal.str "")] }

/-- C6 initial state: beacon_url configured to the original URL. -/
def stC6 : State :=
  { initState with beacon_url := "http://orig.example/" }

/-- C6 run: request a flush with an override URL, run the flush, then
request and run a second flush with no override. -/
def c6Final : State :=
  let st1 := (sendBeacon stC6 "http://override.example/").2
  let st2 := (real_sendBeacon envBase st1).2
  let st3 := (sendBeacon st2 "").2
  (real_sendBeacon envBase st3).2

/-- The destination URL of the second transport invocation of the C6
run. -/
def c6SecondUrl : String :=
  match c6Final.transportActions with
  | [_, TransportAction.image u] => u
  | _ => ""

/-- C9 counterexample data: no http.initiator variable, but a value
containing the literal text http.initiator. -/
def dataC9 : JSObj :=
  [("a", JSVal.str "http.initiator")]

/-- C10 counterexample: a bulk addVar object whose key is the literal
string an object coerces to as a property key. -/
def objC10 : JSObj :=
  [("[object Object]", JSVal.str "v")]

/-- Key membership after a filter by a key predicate. -/
theorem objHas_filterKey (q : String → Bool) (m : String) (o : JSObj) :
    objHas (o.filter (fun p => q p.1)) m = (q m && objHas o m) := by
  induction o with
  | nil => simp [objHas]
  | cons p rest ih =>
    simp only [objHas, List.filter_cons] at ih ⊢
    by_cases hq : q p.1 = true
    · by_cases he : p.1 = m
      · subst he
        simp [hq, ih]
      · have hne : (p.1 == m) = false := by simp [he]
        simp [hq, hne, ih]
    · have hqf : q p.1 = false := by simpa using hq
      by_cases he : p.1 = m
      · subst he
        simp [hqf, ih]
      · have hne : (p.1 == m) = false := by simp [he]
        simp [hqf, hne, ih]

/-- Lookup after a filter by a key predicate. -/
theorem objGet_filterKey (q : String → Bool) (m : String) (o : JSObj) :
    objGet (o.filter (fun p => q p.1)) m =
      (if q m then objGet o m else JSVal.undef) := by
  induction o with
  | nil => simp [objGet]
  | cons p rest ih =>
    simp only [objGet, List.filter_cons] at ih ⊢
    by_cases hq : q p.1 = true
    · by_cases he : p.1 = m
      · subst he
        simp [hq, List.find?]
      · have hne : (p.1 == m) = false := by simp [he]
        simp only [hq, if_true, List.find?, hne]
        exact ih
    · have hqf : q p.1 = false := by simpa using hq
      by_cases he : p.1 = m
      · subst he
        simp only [hqf] at ih ⊢
        simp only [show (false = true) = False from by simp, if_false] at ih ⊢
        exact ih
      · have hne : (p.1 == m) = false := by simp [he]
        simp only [hqf] at ih ⊢
        simp only [show (false = true) = False from by simp, if_false] at ih ⊢
        rw [show List.find? (fun p => p.1 == m) (p :: rest)
            = List.find? (fun p => p.1 == m) rest from by simp [List.find?, hne]]
        exact ih

/-- Keys after a filter by a key predicate. -/
theorem objKeys_filterKey (q : String → Bool) (o : JSObj) :
    objKeys (o.filter (fun p => q p.1)) = (objKeys o).filter q := by
  induction o with
  | nil => rfl
  | cons p rest ih =>
    by_cases hq : q p.1 = true <;>
      simp [objKeys, List.filter_cons, hq] at * <;> exact ih

/-- objDel is the filter dropping one key. -/
theorem objHas_objDel (o : JSObj) (k m : String) :
    objHas (objDel o k) m = ((m != k) && objHas o m) := by
  simpa [objDel] using objHas_filterKey (fun a => a != k) m o

/-- Lookup is unchanged by deleting a different key. -/
theorem objGet_objDel (o : JSObj) (k m : String) (h : m ≠ k) :
    objGet (objDel o k) m = objGet o m := by
  have := objGet_filterKey (fun a => a != k) m o
  simp only [objDel]
  rw [this]
  simp [h]

/-- Deleting an absent key is the identity. -/
theorem objDel_of_not_has (o : JSObj) (k : String) (h : objHas o k = false) :
    objDel o k = o := by
  unfold objDel
  apply List.filter_eq_self.mpr
  intro p hp
  simp only [bne_iff_ne, ne_eq]
  intro he
  have : objHas o k = true := by
    unfold objHas
    exact List.any_eq_true.mpr ⟨p, hp, by simp [he]⟩
  simp [this] at h

/-- The value fed to getUriEncodedVar is unchanged by deleting a
different key. -/
theorem gvopVal_objDel (o : JSObj) (k m : String) (h : m ≠ k) :
    gvopVal (objDel o k) m = gvopVal o m := by
  unfold gvopVal
  rw [objGet_objDel o k m h]

/-- The priority-bucket pass of getVarsOfPriority: the URI-encoded
pairs of the bucket names present in vars, in bucket order, and the
deletion of those names from vars. -/
theorem gvop_del_fold (pri : Int) (hpri : pri ≠ 0) (bucket : List String)
    (hnd : bucket.Nodup) (acc : List String) (vars : JSObj) :
    bucket.foldl (gvopStep pri) (acc, vars) =
      (acc ++ (bucket.filter (fun n => objHas vars n)).map
          (fun n => getUriEncodedVar n (gvopVal vars n)),
        objDelList vars bucket) := by
  induction bucket generalizing acc vars with
  | nil => simp [objDelList]
  | cons n rest ih =>
    have hn : n ∉ rest := (List.nodup_cons.mp hnd).1
    have hrest : rest.Nodup := (List.nodup_cons.mp hnd).2
    have hbne : (pri != 0) = true := bne_iff_ne.mpr hpri
    simp only [List.foldl_cons]
    by_cases h : objHas vars n = true
    · have hstep : gvopStep pri (acc, vars) n =
          (acc ++ [getUriEncodedVar n (gvopVal vars n)], objDel vars n) := by
        simp [gvopStep, h, hbne]
      rw [hstep, ih hrest]
      have hfc : rest.filter (fun m => objHas (objDel vars n) m)
          = rest.filter (fun m => objHas vars m) := by
        apply List.filter_congr
        intro m hm
        have hmn : m ≠ n := fun e => hn (e ▸ hm)
        simp [objHas_objDel, hmn]
      have hmc : (rest.filter (fun m => objHas vars m)).map
            (fun m => getUriEncodedVar m (gvopVal (objDel vars n) m))
          = (rest.filter (fun m => objHas vars m)).map
            (fun m => getUriEncodedVar m (gvopVal vars m)) := by
        apply List.map_congr_left
        intro m hm
        have hmr : m ∈ rest := (List.mem_filter.mp hm).1
        have hmn : m ≠ n := fun e => hn (e ▸ hmr)
        rw [gvopVal_objDel vars n m hmn]
      rw [Prod.ext_iff]
      refine ⟨?_, rfl⟩
      simp only [hfc, hmc, List.filter_cons, h, if_true]
      simp [List.append_assoc]
    · have hf : objHas vars n = false := by simpa using h
      have hstep : gvopStep pri (acc, vars) n = (acc, vars) := by
        simp [gvopStep, hf]
      rw [hstep, ih hrest]
      have hdel : objDel vars n = vars := objDel_of_not_has vars n hf
      rw [Prod.ext_iff]
      constructor
      · simp [List.filter_cons, hf]
      · show objDelList vars rest = objDelList vars (n :: rest)
        show objDelList vars rest = objDelList (objDel vars n) rest
        rw [hdel]

/-- Folding deletions is a filter on the keys. -/
theorem objDelList_eq_filter (ks : List String) (o : JSObj) :
    objDelList o ks = o.filter (fun p => !(ks.contains p.1)) := by
  induction ks generalizing o with
  | nil => simp [objDelList]
  | cons k rest ih =>
    show objDelList (objDel o k) rest = _
    rw [ih]
    unfold objDel
    rw [List.filter_filter]
    apply List.filter_congr
    intro p _
    by_cases hpk : p.1 = k <;> simp [List.contains_cons, Bool.and_comm, hpk]

/-- Every key of an object is a present property. -/
theorem objHas_of_mem_keys (o : JSObj) (n : String) (h : n ∈ objKeys o) :
    objHas o n = true := by
  unfold objKeys at h
  obtain ⟨p, hp, he⟩ := List.mem_map.mp h
  unfold objHas
  exact List.any_eq_true.mpr ⟨p, hp, by simp [he]⟩

/-- The non-prioritized pass of getVarsOfPriority over a key list whose
names are all present: emit every pair without mutating vars. -/
theorem gvop_mid_fold (l : List String) (vars : JSObj)
    (hall : ∀ n ∈ l, objHas vars n = true) (acc : List String) :
    l.foldl (gvopStep 0) (acc, vars) =
      (acc ++ l.map (fun n => getUriEncodedVar n (gvopVal vars n)), vars) := by
  induction l generalizing acc with
  | nil => simp
  | cons n rest ih =>
    have hstep : gvopStep 0 (acc, vars) n =
        (acc ++ [getUriEncodedVar n (gvopVal vars n)], vars) := by
      simp [gvopStep, hall n (by simp)]
    simp only [List.foldl_cons, hstep]
    rw [ih (fun m hm => hall m (by simp [hm]))]
    simp [List.append_assoc]

/-- getVarsOfPriority at priority -1. -/
theorem getVarsOfPriority_neg (vp : VarPriority) (vars : JSObj)
    (hnd : vp.neg.Nodup) :
    getVarsOfPriority vp vars (-1) =
      ((vp.neg.filter (fun n => objHas vars n)).map
          (fun n => getUriEncodedVar n (gvopVal vars n)),
        objDelList vars vp.neg) := by
  have hc : ((-1 : Int) == -1) = true := by decide
  unfold getVarsOfPriority
  simp only [hc, if_true]
  simpa using gvop_del_fold (-1) (by decide) vp.neg hnd [] vars

/-- getVarsOfPriority at priority 1. -/
theorem getVarsOfPriority_pos (vp : VarPriority) (vars : JSObj)
    (hnd : vp.pos.Nodup) :
    getVarsOfPriority vp vars 1 =
      ((vp.pos.filter (fun n => objHas vars n)).map
          (fun n => getUriEncodedVar n (gvopVal vars n)),
        objDelList vars vp.pos) := by
  have hc1 : ((1 : Int) == -1) = false := by decide
  have hc2 : ((1 : Int) == 1) = true := by decide
  unfold getVarsOfPriority
  simp only [hc1, hc2, if_true, if_false, Bool.false_eq_true]
  simpa using gvop_del_fold 1 (by decide) vp.pos hnd [] vars

/-- getVarsOfPriority at priority 0. -/
theorem getVarsOfPriority_mid (vp : VarPriority) (vars : JSObj) :
    getVarsOfPriority vp vars 0 =
      ((objKeys vars).map (fun n => getUriEncodedVar n (gvopVal vars n)), vars) := by
  have hc1 : ((0 : Int) == -1) = false := by decide
  have hc2 : ((0 : Int) == 1) = false := by decide
  have hc3 : ((0 : Int) == 0) = true := by decide
  unfold getVarsOfPriority
  simp only [hc1, hc2, hc3, if_true, if_false, Bool.false_eq_true]
  simpa using gvop_mid_fold (objKeys vars) vars
    (fun n hn => objHas_of_mem_keys vars n hn) []

/-- The low-priority list computed after the priority -1 deletions is
the low-priority list of the original snapshot, given disjoint
buckets. -/
theorem last_list_align (vp : VarPriority) (data : JSObj)
    (h3 : ∀ n ∈ vp.pos, n ∉ vp.neg) :
    (vp.pos.filter (fun n =>
        objHas (data.filter (fun p => !(vp.neg.contains p.1))) n)).map
      (fun n => getUriEncodedVar n
        (gvopVal (data.filter (fun p => !(vp.neg.contains p.1))) n))
    = (vp.pos.filter (fun n => objHas data n)).map
      (fun n => getUriEncodedVar n (gvopVal data n)) := by
  have hq : ∀ n ∈ vp.pos, (!(vp.neg.contains n)) = true := by
    intro n hn
    simp [h3 n hn]
  have hfc : vp.pos.filter (fun n =>
        objHas (data.filter (fun p => !(vp.neg.contains p.1))) n)
      = vp.pos.filter (fun n => objHas data n) := by
    apply List.filter_congr
    intro n hn
    have he := objHas_filterKey (fun a => !(vp.neg.contains a)) n data
    rw [he, hq n hn, Bool.true_and]
  rw [hfc]
  apply List.map_congr_left
  intro n hn
  obtain ⟨hnp, -⟩ := List.mem_filter.mp hn
  unfold gvopVal
  have he := objGet_filterKey (fun a => !(vp.neg.contains a)) n data
  rw [he, hq n hnp]
  simp

/-- The non-prioritized list computed after both priority deletions is
the bucket-free part of the original snapshot, in insertion order. -/
theorem mid_list_align (vp : VarPriority) (data : JSObj) :
    (objKeys ((data.filter (fun p => !(vp.neg.contains p.1))).filter
        (fun p => !(vp.pos.contains p.1)))).map
      (fun n => getUriEncodedVar n
        (gvopVal ((data.filter (fun p => !(vp.neg.contains p.1))).filter
          (fun p => !(vp.pos.contains p.1))) n))
    = ((objKeys data).filter
        (fun n => !(vp.neg.contains n) && !(vp.pos.contains n))).map
      (fun n => getUriEncodedVar n (gvopVal data n)) := by
  rw [List.filter_filter]
  have hk := objKeys_filterKey
    (fun a => !(vp.pos.contains a) && !(vp.neg.contains a)) data
  simp only [hk]
  rw [show ((objKeys data).filter
        (fun a => !(vp.pos.contains a) && !(vp.neg.contains a)))
      = ((objKeys data).filter
        (fun n => !(vp.neg.contains n) && !(vp.pos.contains n))) from
    List.filter_congr (fun a _ => Bool.and_comm _ _)]
  apply List.map_congr_left
  intro n hn
  obtain ⟨-, hq⟩ := List.mem_filter.mp hn
  unfold gvopVal
  have he := objGet_filterKey
    (fun a => !(vp.pos.contains a) && !(vp.neg.contains a)) n data
  have hq2 : (!(vp.pos.contains n) && !(vp.neg.contains n)) = true := by
    rw [Bool.and_comm]
    exact hq
  rw [he, hq2]
  simp

/-- C1: for every flush, the assembled wire payload is the &-joined
concatenation of three URI-encoded name=value lists: the priority -1
names present in the snapshot (in the insertion order of that bucket),
the remaining vars in insertion order (every name in either priority
bucket excluded, so a name consumed into the -1 or 1 list never also
appears in the middle list), then the priority 1 names present; and on
the specification example the assembled order is a=1&b=3&m=2&z=4. -/
theorem C1_param_assembly (vp : VarPriority) (data : JSObj)
    (h1 : vp.neg.Nodup) (h2 : vp.pos.Nodup)
    (h3 : ∀ n ∈ vp.pos, n ∉ vp.neg) :
    assembleParams vp data = String.intercalate "&"
      ((vp.neg.filter (fun n => objHas data n)).map
          (fun n => getUriEncodedVar n (gvopVal data n))
        ++ ((objKeys data).filter
              (fun n => !(vp.neg.contains n) && !(vp.pos.contains n))).map
            (fun n => getUriEncodedVar n (gvopVal data n))
        ++ (vp.pos.filter (fun n => objHas data n)).map
            (fun n => getUriEncodedVar n (gvopVal data n)))
    ∧ assembleParams exampleVP exampleVars = "a=1&b=3&m=2&z=4" := by
  refine ⟨?_, by decide⟩
  have e1 := getVarsOfPriority_neg vp data h1
  have e2 := getVarsOfPriority_pos vp
    (data.filter (fun p => !(vp.neg.contains p.1))) h2
  have e3 := getVarsOfPriority_mid vp
    ((data.filter (fun p => !(vp.neg.contains p.1))).filter
      (fun p => !(vp.pos.contains p.1)))
  simp only [assembleParams, e1, objDelList_eq_filter, e2, e3,
    mid_list_align vp data, last_list_align vp data h3]

/-- C1 witness: the ordering theorem applied to the specification
example, whose assembled payload is a=1&b=3&m=2&z=4. -/
theorem C1_param_assembly_witness :
    assembleParams exampleVP exampleVars = String.intercalate "&"
      ((exampleVP.neg.filter (fun n => objHas exampleVars n)).map
          (fun n => getUriEncodedVar n (gvopVal exampleVars n))
        ++ ((objKeys exampleVars).filter
              (fun n => !(exampleVP.neg.contains n) && !(exampleVP.pos.contains n))).map
            (fun n => getUriEncodedVar n (gvopVal exampleVars n))
        ++ (exampleVP.pos.filter (fun n => objHas exampleVars n)).map
            (fun n => getUriEncodedVar n (gvopVal exampleVars n)))
    ∧ assembleParams exampleVP exampleVars = "a=1&b=3&m=2&z=4" :=
  C1_param_assembly exampleVP exampleVars (by decide) (by decide) (by decide)

/-- The image/xhr tail only appends transport invocations. -/
theorem sendBeaconDataFallback_shape (env : Env) (st : State)
    (url body : String) (useImg : Bool) :
    ∃ t, (sendBeaconDataFallback env st url body useImg).2 =
      { st with transportActions := t } := by
  unfold sendBeaconDataFallback
  dsimp only
  repeat' split
  all_goals exact ⟨_, rfl⟩

/-- The assembly-and-send core only updates beacon_url, firedEvents and
transportActions. -/
theorem sendBeaconDataCore_shape (env : Env) (st : State) (data : JSObj) :
    ∃ u f t, (sendBeaconDataCore env st data).2 =
      { st with beacon_url := u, firedEvents := f, transportActions := t } := by
  unfold sendBeaconDataCore
  dsimp only
  repeat' split
  all_goals
    first
    | exact ⟨_, _, _, rfl⟩
    | · obtain ⟨t, ht⟩ := sendBeaconDataFallback_shape env _ _ _ _
        rw [ht]
        exact ⟨_, _, _, rfl⟩

/-- sendBeaconData only updates beacon_url, firedEvents and
transportActions. -/
theorem sendBeaconData_shape (env : Env) (st : State) (data : JSObj) :
    ∃ u f t, (sendBeaconData env st data).2 =
      { st with beacon_url := u, firedEvents := f, transportActions := t } := by
  unfold sendBeaconData
  dsimp only
  repeat' split
  all_goals
    first
    | exact ⟨_, _, _, rfl⟩
    | · obtain ⟨u, f, t, ht⟩ := sendBeaconDataCore_shape env _ data
        rw [ht]
        exact ⟨_, _, _, rfl⟩

/-- sendBeaconData leaves beaconQueued unchanged. -/
theorem sBD_beaconQueued (env : Env) (st : State) (data : JSObj) :
    (sendBeaconData env st data).2.beaconQueued = st.beaconQueued := by
  obtain ⟨u, f, t, h⟩ := sendBeaconData_shape env st data
  rw [h]

/-- sendBeaconData leaves scheduled unchanged. -/
theorem sBD_scheduled (env : Env) (st : State) (data : JSObj) :
    (sendBeaconData env st data).2.scheduled = st.scheduled := by
  obtain ⟨u, f, t, h⟩ := sendBeaconData_shape env st data
  rw [h]

/-- sendBeaconData leaves the live vars unchanged. -/
theorem sBD_vars (env : Env) (st : State) (data : JSObj) :
    (sendBeaconData env st data).2.vars = st.vars := by
  obtain ⟨u, f, t, h⟩ := sendBeaconData_shape env st data
  rw [h]

/-- sendBeaconData leaves the single-use set unchanged. -/
theorem sBD_singleBeaconVars (env : Env) (st : State) (data : JSObj) :
    (sendBeaconData env st data).2.singleBeaconVars = st.singleBeaconVars := by
  obtain ⟨u, f, t, h⟩ := sendBeaconData_shape env st data
  rw [h]

/-- sendBeaconData leaves the page-load latch unchanged. -/
theorem sBD_hasSent (env : Env) (st : State) (data : JSObj) :
    (sendBeaconData env st data).2.hasSentPageLoadBeacon
      = st.hasSentPageLoadBeacon := by
  obtain ⟨u, f, t, h⟩ := sendBeaconData_shape env st data
  rw [h]

/-- sendBeaconData leaves beaconsSent unchanged. -/
theorem sBD_beaconsSent (env : Env) (st : State) (data : JSObj) :
    (sendBeaconData env st data).2.beaconsSent = st.beaconsSent := by
  obtain ⟨u, f, t, h⟩ := sendBeaconData_shape env st data
  rw [h]

/-- sendBeaconData never clears the override. -/
theorem sBD_override (env : Env) (st : State) (data : JSObj) :
    (sendBeaconData env st data).2.beacon_url_override
      = st.beacon_url_override := by
  obtain ⟨u, f, t, h⟩ := sendBeaconData_shape env st data
  rw [h]

/-- sendBeaconData leaves the https-forcing flag unchanged. -/
theorem sBD_forceHttps (env : Env) (st : State) (data : JSObj) :
    (sendBeaconData env st data).2.beacon_url_force_https
      = st.beacon_url_force_https := by
  obtain ⟨u, f, t, h⟩ := sendBeaconData_shape env st data
  rw [h]

/-- sendBeaconData schedules no page_load_beacon notification. -/
theorem sBD_pageLoadScheduled (env : Env) (st : State) (data : JSObj) :
    (sendBeaconData env st data).2.pageLoadScheduled
      = st.pageLoadScheduled := by
  obtain ⟨u, f, t, h⟩ := sendBeaconData_shape env st data
  rw [h]

/-- sendBeaconData leaves the handoff count unchanged. -/
theorem sBD_handoffs (env : Env) (st : State) (data : JSObj) :
    (sendBeaconData env st data).2.handoffs = st.handoffs := by
  obtain ⟨u, f, t, h⟩ := sendBeaconData_shape env st data
  rw [h]

/-- sendBeaconData leaves beacon_type unchanged. -/
theorem sBD_beaconType (env : Env) (st : State) (data : JSObj) :
    (sendBeaconData env st data).2.beacon_type = st.beacon_type := by
  obtain ⟨u, f, t, h⟩ := sendBeaconData_shape env st data
  rw [h]

/-- The flush body increments beaconsSent exactly once, latches the
page-load flag and schedules the notification exactly on the first
page-load-classified flush, performs the handoff unless rate limited,
and leaves the scheduling state and the override unchanged. -/
theorem rsb_afterGuards_spec (env : Env) (st : State) :
    (rsb_afterGuards env st).2.beaconQueued = st.beaconQueued ∧
    (rsb_afterGuards env st).2.scheduled = st.scheduled ∧
    (rsb_afterGuards env st).2.beaconsSent = st.beaconsSent + 1 ∧
    (rsb_afterGuards env st).2.hasSentPageLoadBeacon
      = (st.hasSentPageLoadBeacon
          || (!st.hasSentPageLoadBeacon && isPageLoadOf st.vars)) ∧
    (rsb_afterGuards env st).2.pageLoadScheduled
      = st.pageLoadScheduled
          + (if !st.hasSentPageLoadBeacon && isPageLoadOf st.vars then 1 else 0) ∧
    (rsb_afterGuards env st).2.beacon_url_override = st.beacon_url_override ∧
    (rsb_afterGuards env st).2.handoffs
      = st.handoffs + (if env.rateLimited then 0 else 1) ∧
    (rsb_afterGuards env st).2.vars
      = objDelList (objDel (objDel (rsbDerivedVars env st) "qt") "pgu")
          st.singleBeaconVars := by
  unfold rsb_afterGuards
  by_cases hr : env.rateLimited
  · simp [hr]
  · simp only [hr, Bool.false_eq_true, if_false]
    simp [sBD_beaconQueued, sBD_scheduled, sBD_beaconsSent, sBD_hasSent,
      sBD_pageLoadScheduled, sBD_override, sBD_handoffs, sBD_vars]

/-- real_sendBeacon with no queued beacon is an exact no-op returning
false. -/
theorem real_sendBeacon_noop (env : Env) (st : State)
    (h : st.beaconQueued = false) :
    real_sendBeacon env st = (RSBResult.ret false, st) := by
  unfold real_sendBeacon
  simp [h]

/-- real_sendBeacon always leaves the queued flag cleared when it was
set on entry. -/
theorem real_sendBeacon_clears (env : Env) (st : State)
    (h : st.beaconQueued = true) :
    (real_sendBeacon env st).2.beaconQueued = false := by
  unfold real_sendBeacon
  by_cases h2 : env.pluginsComplete st.vars
  · by_cases h3 : env.domAvailable
    · simp only [h, h2, h3]
      simp [(rsb_afterGuards_spec env { st with beaconQueued := false }).1]
    · simp [h, h2, h3]
  · simp [h, h2]

/-- One sendBeacon call on an already-queued state keeps the flag and
schedules nothing new. -/
theorem sendBeacon_queued_noop (st : State) (a : String)
    (h : st.beaconQueued = true) :
    (sendBeacon st a).2.beaconQueued = true ∧
    (sendBeacon st a).2.scheduled = st.scheduled := by
  unfold sendBeacon
  by_cases ha : a != "" <;> simp [ha, h]

/-- Folded sendBeacon calls on a queued state preserve the flag and the
number of scheduled callbacks. -/
theorem sendBeacon_fold_noop (args : List String) (st : State)
    (h : st.beaconQueued = true) :
    (args.foldl (fun s a => (sendBeacon s a).2) st).beaconQueued = true ∧
    (args.foldl (fun s a => (sendBeacon s a).2) st).scheduled = st.scheduled := by
  induction args generalizing st with
  | nil => exact ⟨h, rfl⟩
  | cons a rest ih =>
    simp only [List.foldl_cons]
    obtain ⟨hq, hs⟩ := sendBeacon_queued_noop st a h
    obtain ⟨hq2, hs2⟩ := ih _ hq
    exact ⟨hq2, hs2.trans hs⟩

/-- C2: any nonempty synchronous burst of sendBeacon calls from an idle
state leaves exactly one scheduled real_sendBeacon callback and the
queued flag set (the first call schedules, the rest are coalesced);
running the flush clears the flag, and any real_sendBeacon invocation
that finds the flag cleared returns false and changes nothing. -/
theorem C2_coalescing (args : List String) (hne : args ≠ []) (st : State)
    (hq : st.beaconQueued = false) (hs : st.scheduled = 0)
    (env : Env) (st2 : State) (h2 : st2.beaconQueued = false) :
    (args.foldl (fun s a => (sendBeacon s a).2) st).beaconQueued = true ∧
    (args.foldl (fun s a => (sendBeacon s a).2) st).scheduled = 1 ∧
    (real_sendBeacon env
      (args.foldl (fun s a => (sendBeacon s a).2) st)).2.beaconQueued = false ∧
    real_sendBeacon env st2 = (RSBResult.ret false, st2) := by
  obtain ⟨a, rest, rfl⟩ := List.exists_cons_of_ne_nil hne
  have hfirst : (sendBeacon st a).2.beaconQueued = true ∧
      (sendBeacon st a).2.scheduled = st.scheduled + 1 := by
    unfold sendBeacon
    by_cases ha : a != "" <;> simp [ha, hq]
  simp only [List.foldl_cons]
  obtain ⟨hq1, hs1⟩ := hfirst
  obtain ⟨hq2, hs2⟩ := sendBeacon_fold_noop rest _ hq1
  refine ⟨hq2, ?_, ?_, real_sendBeacon_noop env st2 h2⟩
  · rw [hs2, hs1, hs]
  · exact real_sendBeacon_clears env _ hq2

/-- C2 witness: a burst of three calls from the pristine state. -/
theorem C2_coalescing_witness :
    ((["http://e/", "", "x"].foldl
        (fun s a => (sendBeacon s a).2) initState).beaconQueued = true ∧
      (["http://e/", "", "x"].foldl
        (fun s a => (sendBeacon s a).2) initState).scheduled = 1 ∧
      (real_sendBeacon envBase
        (["http://e/", "", "x"].foldl
          (fun s a => (sendBeacon s a).2) initState)).2.beaconQueued = false ∧
      real_sendBeacon envBase initState = (RSBResult.ret false, initState)) :=
  C2_coalescing ["http://e/", "", "x"] (by decide) initState rfl rfl
    envBase initState rfl

/-- C4 counterexample: a rate-limited flush cycle hands nothing to
Transport (no sendBeaconData call, no transport invocation) yet
increments beaconsSent from 0 to 1, refuting the claim that a cycle
which does not hand data to Transport does not increment the counter. -/
theorem C4_counterexample :
    (real_sendBeacon envRateLimited stC4).2.beaconsSent = 1 ∧
    (real_sendBeacon envRateLimited stC4).2.handoffs = 0 ∧
    (real_sendBeacon envRateLimited stC4).2.transportActions = [] ∧
    stC4.beaconsSent = 0 := by decide

/-- C4 amended: beaconsSent is monotonic, and it is incremented exactly
once per flush cycle that passes the queued-flag, plugin-readiness and
DOM checks - at beacon-number assignment, before the rate-limit and URL
checks - so rate-limited cycles and cycles whose URL is missing or
rejected still increment it. -/
theorem C4_beaconsSent_amended (env : Env) (st : State) :
    st.beaconsSent ≤ (real_sendBeacon env st).2.beaconsSent ∧
    (real_sendBeacon env st).2.beaconsSent =
      (if st.beaconQueued && env.pluginsComplete st.vars && env.domAvailable
        then st.beaconsSent + 1 else st.beaconsSent) := by
  unfold real_sendBeacon
  by_cases h1 : st.beaconQueued = true
  · by_cases h2 : env.pluginsComplete st.vars = true
    · by_cases h3 : env.domAvailable = true
      · have hs := (rsb_afterGuards_spec env { st with beaconQueued := false }).2.2.1
        simp only [h1, h2, h3] at *
        simp_all
      · simp_all
    · simp_all
  · simp_all

/-- C7 counterexample: a flush whose http.initiator is the empty string
is transmitted (one transport handoff) but does not set the page-load
latch and does not schedule the page_load_beacon notification, refuting
the claim that the latch is set on the first flush whose http.initiator
is absent or empty. -/
theorem C7_counterexample :
    objGet stC7.vars "http.initiator" = JSVal.str "" ∧
    stC7.hasSentPageLoadBeacon = false ∧
    (real_sendBeacon envBase stC7).2.handoffs = 1 ∧
    (real_sendBeacon envBase stC7).2.hasSentPageLoadBeacon = false ∧
    (real_sendBeacon envBase stC7).2.pageLoadScheduled = 0 := by decide

/-- C7 amended: hasSentPageLoadBeacon is a one-way latch set by a flush
cycle (one passing the queued/plugin/DOM guards) exactly when it was
not yet set and http.initiator is undefined or one of the recognized
SPA kinds (spa, spa_hard) - an empty-string initiator does not qualify;
the page_load_beacon notification is scheduled exactly when that
transition happens, hence at most once per page. -/
theorem C7_latch_amended (env : Env) (st : State) :
    (real_sendBeacon env st).2.hasSentPageLoadBeacon =
      (st.hasSentPageLoadBeacon ||
        ((st.beaconQueued && env.pluginsComplete st.vars && env.domAvailable) &&
          (!st.hasSentPageLoadBeacon && isPageLoadOf st.vars))) ∧
    (real_sendBeacon env st).2.pageLoadScheduled =
      st.pageLoadScheduled +
        (if (st.beaconQueued && env.pluginsComplete st.vars && env.domAvailable) &&
            (!st.hasSentPageLoadBeacon && isPageLoadOf st.vars)
          then 1 else 0) := by
  unfold real_sendBeacon
  by_cases h1 : st.beaconQueued = true
  · by_cases h2 : env.pluginsComplete st.vars = true
    · by_cases h3 : env.domAvailable = true
      · have hs := (rsb_afterGuards_spec env { st with beaconQueued := false }).2.2.2.1
        have hp := (rsb_afterGuards_spec env { st with beaconQueued := false }).2.2.2.2.1
        simp only [h1, h2, h3] at *
        simp_all
      · simp_all
    · simp_all
  · simp_all

/-- Without https forcing, the core does not rewrite the effective
beacon URL. -/
theorem sendBeaconDataCore_url (env : Env) (st : State) (data : JSObj)
    (hf : st.beacon_url_force_https = false) :
    (sendBeaconDataCore env st data).2.beacon_url = st.beacon_url := by
  unfold sendBeaconDataCore
  dsimp only
  simp only [hf, Bool.false_and, Bool.false_eq_true, if_false]
  repeat' split
  all_goals
    first
    | rfl
    | · obtain ⟨t, ht⟩ := sendBeaconDataFallback_shape env _ _ _ _
        rw [ht]

/-- With an override set and no https forcing, sendBeaconData assigns
the override into beacon_url permanently. -/
theorem sendBeaconData_url_override (env : Env) (st : State) (data : JSObj)
    (hov : st.beacon_url_override ≠ "") (hf : st.beacon_url_force_https = false) :
    (sendBeaconData env st data).2.beacon_url = st.beacon_url_override := by
  unfold sendBeaconData
  dsimp only
  have hov2 : (st.beacon_url_override != "") = true := bne_iff_ne.mpr hov
  simp only [hov2, if_true]
  repeat' split
  all_goals
    first
    | rfl
    | rw [sendBeaconDataCore_url env _ data (by simp [hf])]

/-- C6 counterexample: with beacon_url configured to the original URL,
a flush requested with an override goes to the override, and a second
flush requested with no override still goes to the override (the
override remains stored and has overwritten beacon_url), not to the
originally configured URL. -/
theorem C6_counterexample :
    stC6.beacon_url = "http://orig.example/" ∧
    c6Final.transportActions =
      [TransportAction.image
        "http://override.example/?u=http%3A%2F%2Fpage.example%2F&v=1.0&ua.plt=plt&ua.vnd=vnd&n=1",
       TransportAction.image
        "http://override.example/?u=http%3A%2F%2Fpage.example%2F&v=1.0&ua.plt=plt&ua.vnd=vnd&n=2"] ∧
    containsSub c6SecondUrl "orig.example" = false ∧
    c6Final.beacon_url_override = "http://override.example/" := by decide

/-- C6 amended: a beacon URL override is sticky, not per-flush: a flush
with the override set leaves the override stored and assigns it into
beacon_url, so that flush and every subsequent flush without a new
override are sent to the override URL (stated without https
rewriting). -/
theorem C6_override_amended (env : Env) (st : State) (data data2 : JSObj)
    (hov : st.beacon_url_override ≠ "") (hf : st.beacon_url_force_https = false) :
    (sendBeaconData env st data).2.beacon_url_override = st.beacon_url_override ∧
    (sendBeaconData env st data).2.beacon_url = st.beacon_url_override ∧
    (sendBeaconData env ((sendBeaconData env st data).2) data2).2.beacon_url
      = st.beacon_url_override := by
  refine ⟨sBD_override env st data,
    sendBeaconData_url_override env st data hov hf, ?_⟩
  have h1 := sBD_override env st data
  have h2 := sBD_forceHttps env st data
  rw [sendBeaconData_url_override env _ data2
    (by rw [h1]; exact hov) (by rw [h2]; exact hf), h1]

/-- C6 witness: the amended theorem on a concrete configured state. -/
theorem C6_override_amended_witness :
    (sendBeaconData envBase
      { stC6 with beacon_url_override := "http://override.example/" }
      []).2.beacon_url_override = "http://override.example/" ∧
    (sendBeaconData envBase
      { stC6 with beacon_url_override := "http://override.example/" }
      []).2.beacon_url = "http://override.example/" ∧
    (sendBeaconData envBase
      ((sendBeaconData envBase
        { stC6 with beacon_url_override := "http://override.example/" } []).2)
      []).2.beacon_url = "http://override.example/" :=
  C6_override_amended envBase
    { stC6 with beacon_url_override := "http://override.example/" }
    [] [] (by decide) (by decide)

/-- C3: subscribing the identical (callback, callbackData, scope)
triple twice with callbackData and scope omitted (undefined) registers
two subscriber records - the dedup check compares the stored,
normalized cb_data (a fresh empty object) and scope (null) against the
raw undefined arguments and never matches - so one fire of the event
invokes the callback twice, contradicting the idempotent-subscribe
claim and the dedup comment in the source. -/
theorem C3_duplicate_subscribe :
    (busHandlers
      (subscribe (subscribe emptyBus "test_event" 0 Ref.undef Ref.undef false)
        "test_event" 0 Ref.undef Ref.undef false) "test_event").length = 2 ∧
    fireCount
      (subscribe (subscribe emptyBus "test_event" 0 Ref.undef Ref.undef false)
        "test_event" 0 Ref.undef Ref.undef false) "test_event" 0 = 2 := by decide

/-- C5: a flush with an empty variable snapshot is not aborted - the
emptiness check reads the length property of a plain object, which is
undefined and never strictly equal to 0 - so the Image transport is
invoked with the bare beacon URL, contradicting the zero-length-abort
claim and the "Check that we have data to send" comment in the
source. -/
theorem C5_empty_snapshot_transmits :
    (sendBeaconData envBase (stReady "") []).1 = RSBResult.ret true ∧
    (sendBeaconData envBase (stReady "") []).2.transportActions
      = [TransportAction.image "http://e/?"] := by decide

/-- C8 counterexample: with a POST-type beacon and both the primary and
the iframe XMLHttpRequest contexts throwing on open/send, sendBeaconData
propagates the exception to its caller (after exactly the primary
attempt and one retry), refuting the claim that it never throws even
when both contexts throw. -/
theorem C8_counterexample :
    (sendBeaconData envBothXhrThrow (stReady "POST") [("a", JSVal.num 1)]).1
      = RSBResult.threw ∧
    countXhr (sendBeaconData envBothXhrThrow (stReady "POST")
      [("a", JSVal.num 1)]).2.transportActions = 2 := by decide

/-- C8 amended: on the request-object (XHR) path, a throwing primary
context is answered by exactly one retry through the iframe context and
no third attempt; the retry either succeeds (no exception escapes) or
its exception propagates to the caller of sendBeaconData - it is not
swallowed. -/
theorem C8_xhr_retry_amended (env : Env) (st : State) (data : JSObj)
    (hapi : env.apiBeaconAvailable = false) (hxhr : env.xhrAvailable = true)
    (htype : st.beacon_type = "POST")
    (hov : st.beacon_url_override = "") (hurl : st.beacon_url ≠ "")
    (hallow : st.beacon_urls_allowed = [])
    (hlen : objGet data "length" ≠ JSVal.num 0)
    (hacts : st.transportActions = []) :
    countXhr (sendBeaconData env st data).2.transportActions
      = (if env.primaryXhrThrows then 2 else 1) ∧
    ((sendBeaconData env st data).1 = RSBResult.threw ↔
      (env.primaryXhrThrows && env.iframeXhrThrows) = true) := by
  unfold sendBeaconData sendBeaconDataCore sendBeaconDataFallback
  dsimp only
  have h1 : (st.beacon_url_override != "") = false := by simp [hov]
  have h2 : (st.beacon_url == "") = false := by simp [hurl]
  have h3 : beaconUrlAllowed env st.beacon_urls_allowed st.beacon_url = true := by
    rw [hallow]
    rfl
  have h4 : (objGet data "length" == JSVal.num 0) = false := by
    simpa using hlen
  simp only [h1, Bool.false_eq_true, if_false, h2, h3, Bool.not_true, h4]
  have h5 : (st.beacon_type == "GET") = false := by rw [htype]; decide
  have h6 : (st.beacon_type == "POST") = true := by rw [htype]; decide
  simp only [hapi, Bool.false_and, Bool.false_eq_true, if_false,
    h5, h6, Bool.true_or, if_true, hxhr, Bool.not_true]
  by_cases hp : env.primaryXhrThrows = true
  · by_cases hi : env.iframeXhrThrows = true
    · simp [hp, hi, countXhr, hacts]
    · have hi2 : env.iframeXhrThrows = false := by simpa using hi
      simp [hp, hi2, countXhr, hacts]
  · have hp2 : env.primaryXhrThrows = false := by simpa using hp
    simp [hp2, countXhr, hacts]

/-- C8 witness: the amended theorem with a throwing primary context and
a working iframe context - one retry, no exception. -/
theorem C8_xhr_retry_amended_witness :
    countXhr (sendBeaconData envPrimaryXhrThrows (stReady "POST")
        [("a", JSVal.num 1)]).2.transportActions
      = (if envPrimaryXhrThrows.primaryXhrThrows then 2 else 1) ∧
    ((sendBeaconData envPrimaryXhrThrows (stReady "POST")
        [("a", JSVal.num 1)]).1 = RSBResult.threw ↔
      (envPrimaryXhrThrows.primaryXhrThrows &&
        envPrimaryXhrThrows.iframeXhrThrows) = true) :=
  C8_xhr_retry_amended envPrimaryXhrThrows (stReady "POST")
    [("a", JSVal.num 1)] rfl rfl rfl rfl (by decide) rfl (by decide) rfl

/-- C9 counterexample: a snapshot with no http.initiator variable but a
value containing the literal text http.initiator: the substring check
on the serialized payload blocks the append, so the XHR POST body
carries no http.initiator=page parameter, refuting the claim that every
flush without an http.initiator variable gets the parameter appended to
its body. -/
theorem C9_counterexample :
    objHas dataC9 "http.initiator" = false ∧
    (sendBeaconData envBase (stReady "POST") dataC9).2.transportActions
      = [TransportAction.xhrPost "http://e/" "a=http.initiator" true] ∧
    containsSub "a=http.initiator" "http.initiator=page" = false := by decide

/-- C9 amended: the append criterion is a substring test on the
serialized parameter string, not variable presence: whenever that
string does not contain the text http.initiator, the native-beacon body
and the XHR POST body are the serialized parameters with
http.initiator=page appended (plus sb=1 for the native primitive),
while the GET/image URL is built from the parameters before the append
and therefore omits it. -/
theorem C9_initiator_append_amended (vp : VarPriority) (data : JSObj)
    (hlen : objGet data "length" ≠ JSVal.num 0)
    (hni : containsSub (assembleParams vp data) "http.initiator" = false)
    (hshort : (("http://e/" ++ "?") ++ assembleParams vp data).length ≤ 2000) :
    (sendBeaconData envApiOK (stFor "" vp) data).2.transportActions =
      [TransportAction.apiBeacon "http://e/"
        (assembleParams vp data ++ "&http.initiator=page" ++ "&sb=1") true] ∧
    (sendBeaconData envBase (stFor "POST" vp) data).2.transportActions =
      [TransportAction.xhrPost "http://e/"
        (assembleParams vp data ++ "&http.initiator=page") true] ∧
    (sendBeaconData envBase (stFor "" vp) data).2.transportActions =
      [TransportAction.image ("http://e/" ++ "?" ++ assembleParams vp data)] := by
  have h4 : (objGet data "length" == JSVal.num 0) = false := by
    simpa using hlen
  have hgt : (decide ((("http://e/" ++ "?") ++ assembleParams vp data).length
      > maxGetLength)) = false := by
    simp only [maxGetLength]
    simpa using Nat.not_lt.mpr hshort
  have hlen2 : "http://e/?".length + (assembleParams vp data).length
      ≤ maxGetLength := by
    simpa [maxGetLength] using hshort
  refine ⟨?_, ?_, ?_⟩
  all_goals
    unfold sendBeaconData sendBeaconDataCore sendBeaconDataFallback
    dsimp only
    simp only [stFor, initState, envApiOK, envBase]
    try dsimp only
    simp only [h4, Bool.false_eq_true, if_false, hni, hgt, Bool.or_false]
    try dsimp only
    first
    | rfl
    | simp [containsSub, containsSubList, listStartsWith, beaconUrlAllowed, hlen2]

/-- C9 witness: the amended theorem on the one-variable snapshot a=1. -/
theorem C9_initiator_append_amended_witness :
    (sendBeaconData envApiOK (stFor "" { neg := [], pos := [] })
        [("a", JSVal.num 1)]).2.transportActions =
      [TransportAction.apiBeacon "http://e/"
        (assembleParams { neg := [], pos := [] } [("a", JSVal.num 1)]
          ++ "&http.initiator=page" ++ "&sb=1") true] ∧
    (sendBeaconData envBase (stFor "POST" { neg := [], pos := [] })
        [("a", JSVal.num 1)]).2.transportActions =
      [TransportAction.xhrPost "http://e/"
        (assembleParams { neg := [], pos := [] } [("a", JSVal.num 1)]
          ++ "&http.initiator=page") true] ∧
    (sendBeaconData envBase (stFor "" { neg := [], pos := [] })
        [("a", JSVal.num 1)]).2.transportActions =
      [TransportAction.image ("http://e/" ++ "?"
        ++ assembleParams { neg := [], pos := [] } [("a", JSVal.num 1)])] :=
  C9_initiator_append_amended { neg := [], pos := [] } [("a", JSVal.num 1)]
    (by decide) (by decide) (by decide)

/-- Property assignment keeps every key of the object (an existing key
is overwritten in place). -/
theorem objHas_setMap (o : JSObj) (k m : String) (v : JSVal) :
    objHas (o.map (fun p => if p.1 == k then (k, v) else p)) m
      = objHas o m := by
  induction o with
  | nil => rfl
  | cons p rest ih =>
    simp only [objHas, List.map_cons, List.any_cons] at ih ⊢
    by_cases hpk : p.1 = k
    · have ht : (p.1 == k) = true := by simp [hpk]
      rw [if_pos ht]
      dsimp only
      rw [ih, hpk]
    · have hf : (p.1 == k) = false := by simp [hpk]
      simp only [hf, Bool.false_eq_true, if_false, ih]

/-- Key membership after a property assignment. -/
theorem objHas_objSet (o : JSObj) (k m : String) (v : JSVal) :
    objHas (objSet o k v) m = ((m == k) || objHas o m) := by
  unfold objSet
  by_cases h : objHas o k = true
  · rw [if_pos h, objHas_setMap]
    by_cases hmk : m = k
    · subst hmk
      have ht : (m == m) = true := by simp
      rw [h, ht, Bool.true_or]
    · have hf : (m == k) = false := by simp [hmk]
      rw [hf, Bool.false_or]
  · rw [if_neg h]
    simp only [objHas, List.any_append, List.any_cons, List.any_nil,
      Bool.or_false]
    by_cases hmk : m = k
    · subst hmk
      have ht : (m == m) = true := by simp
      rw [ht, Bool.true_or, Bool.or_true]
    · have h1 : (m == k) = false := by simp [hmk]
      have h2 : (k == m) = false := by
        simp [show k ≠ m from fun e => hmk e.symm]
      rw [h1, h2, Bool.or_false, Bool.false_or]

/-- A present key stays present after any assignment. -/
theorem objHas_objSet_of (o : JSObj) (k2 : String) (v : JSVal) (k : String)
    (h : objHas o k = true) : objHas (objSet o k2 v) k = true := by
  rw [objHas_objSet]
  simp [h]

/-- A present key stays present after deleting a different key. -/
theorem objHas_objDel_of (o : JSObj) (k2 k : String)
    (hne : k ≠ k2) (h : objHas o k = true) :
    objHas (objDel o k2) k = true := by
  rw [objHas_objDel]
  simp [hne, h]

/-- A present key stays present through a conditional when it stays
present in both branches. -/
theorem objHas_ite_of (c : Prop) [Decidable c] (a b : JSObj) (k : String)
    (ha : objHas a k = true) (hb : objHas b k = true) :
    objHas (if c then a else b) k = true := by
  split <;> assumption

/-- A present key other than pgu and r survives the URL-field
population of the flush. -/
theorem objHas_rsbURLVars (env : Env) (refr : String) (isSPA : Bool)
    (vars : JSObj) (k : String) (hk2 : k ≠ "pgu") (hk3 : k ≠ "r")
    (h : objHas vars k = true) :
    objHas (rsbURLVars env refr isSPA vars) k = true := by
  unfold rsbURLVars
  dsimp only
  repeat
    first
    | exact h
    | exact hk2
    | exact hk3
    | apply objHas_objSet_of
    | apply objHas_objDel_of
    | apply objHas_ite_of

/-- A present key survives the version/session population. -/
theorem objHas_rsbSessionVars (env : Env) (vars : JSObj) (k : String)
    (h : objHas vars k = true) :
    objHas (rsbSessionVars env vars) k = true := by
  unfold rsbSessionVars
  dsimp only
  repeat
    first
    | exact h
    | apply objHas_objSet_of
    | apply objHas_ite_of

/-- A present key survives the visibility population. -/
theorem objHas_rsbVisVars (env : Env) (vars : JSObj) (k : String)
    (h : objHas vars k = true) :
    objHas (rsbVisVars env vars) k = true := by
  unfold rsbVisVars
  dsimp only
  repeat
    first
    | exact h
    | apply objHas_objSet_of
    | apply objHas_ite_of

/-- A present key survives the platform/beacon-number population. -/
theorem objHas_rsbPlatformVars (env : Env) (n : Nat) (vars : JSObj) (k : String)
    (h : objHas vars k = true) :
    objHas (rsbPlatformVars env n vars) k = true := by
  unfold rsbPlatformVars
  dsimp only
  repeat
    first
    | exact h
    | apply objHas_objSet_of
    | apply objHas_ite_of

/-- A present key survives the errors population. -/
theorem objHas_rsbErrorsVars (errors : List (String × Nat)) (vars : JSObj)
    (k : String) (h : objHas vars k = true) :
    objHas (rsbErrorsVars errors vars) k = true := by
  unfold rsbErrorsVars
  dsimp only
  repeat
    first
    | exact h
    | apply objHas_objSet_of
    | apply objHas_ite_of

/-- A present key other than pgu and r survives the whole derived-field
population. -/
theorem objHas_rsbDerivedVars (env : Env) (st : State) (k : String)
    (hk2 : k ≠ "pgu") (hk3 : k ≠ "r") (h : objHas st.vars k = true) :
    objHas (rsbDerivedVars env st) k = true := by
  unfold rsbDerivedVars
  exact objHas_rsbErrorsVars _ _ _
    (objHas_rsbPlatformVars _ _ _ _
      (objHas_rsbVisVars _ _ _
        (objHas_rsbSessionVars _ _ _
          (objHas_rsbURLVars _ _ _ _ _ hk2 hk3 h))))

/-- A present key not in the deleted list survives the fold of
deletions. -/
theorem objHas_objDelList_of (o : JSObj) (ks : List String) (k : String)
    (hmem : k ∉ ks) (h : objHas o k = true) :
    objHas (objDelList o ks) k = true := by
  rw [objDelList_eq_filter]
  have he := objHas_filterKey (fun a => !(ks.contains a)) k o
  simp only [he]
  simp [hmem, h]

/-- real_sendBeacon with all guards passing runs the flush body on the
dequeued state. -/
theorem real_sendBeacon_run (env : Env) (st : State)
    (h1 : st.beaconQueued = true) (h2 : env.pluginsComplete st.vars = true)
    (h3 : env.domAvailable = true) :
    real_sendBeacon env st
      = rsb_afterGuards env { st with beaconQueued := false } := by
  unfold real_sendBeacon
  simp [h1, h2, h3]

/-- A var whose name avoids qt, pgu, r and the single-use set is still
in the live store after any real_sendBeacon call. -/
theorem objHas_after_flush (env : Env) (st : State) (k : String)
    (hk1 : k ≠ "qt") (hk2 : k ≠ "pgu") (hk3 : k ≠ "r")
    (hsb : k ∉ st.singleBeaconVars)
    (h : objHas st.vars k = true) :
    objHas (real_sendBeacon env st).2.vars k = true := by
  by_cases h1 : st.beaconQueued = true
  · by_cases h2 : env.pluginsComplete st.vars = true
    · by_cases h3 : env.domAvailable = true
      · rw [real_sendBeacon_run env st h1 h2 h3]
        rw [(rsb_afterGuards_spec env { st with beaconQueued := false }).2.2.2.2.2.2.2]
        apply objHas_objDelList_of _ _ _ hsb
        apply objHas_objDel_of _ _ _ hk2
        apply objHas_objDel_of _ _ _ hk1
        exact objHas_rsbDerivedVars env _ k hk2 hk3 h
      · unfold real_sendBeacon
        simp [h1, h2, h3, h]
    · unfold real_sendBeacon
      simp [h1, h2, h]
  · unfold real_sendBeacon
    simp [h1, h]

/-- Membership in the name-set insertion. -/
theorem mem_sbAdd (l : List String) (b a : String) :
    a ∈ sbAdd l b ↔ (a ∈ l ∨ a = b) := by
  unfold sbAdd
  by_cases h : l.contains b = true
  · have hb : b ∈ l := by simpa using h
    rw [if_pos h]
    constructor
    · exact Or.inl
    · rintro (ha | rfl)
      · exact ha
      · exact hb
  · rw [if_neg h]
    simp

/-- C10 counterexample: a bulk addVar call with singleBeacon set and an
object whose key is literally "[object Object]": that individual key IS
marked single-use (the stringified object collides with it) and the var
does NOT persist past the next flush, refuting the claim that no
individual key of the bulk object is ever marked single-use and that
every bulk-added var persists. -/
theorem C10_counterexample :
    "[object Object]" ∈ objKeys objC10 ∧
    "[object Object]"
      ∈ (addVar initState (AddVarName.obj objC10) JSVal.undef true).singleBeaconVars ∧
    objHas (addVar initState (AddVarName.obj objC10) JSVal.undef true).vars
      "[object Object]" = true ∧
    objHas (real_sendBeacon envBase
      { (addVar initState (AddVarName.obj objC10) JSVal.undef true) with
        beaconQueued := true, beacon_url := "http://e/" }).2.vars
      "[object Object]" = false := by decide

/-- C10 amended: a bulk addVar with singleBeacon set stores only the
stringified object "[object Object]" in the single-use set, so every
individual key of the object other than that literal string is not
marked single-use, and (when also distinct from the reserved names qt,
pgu and r) the var survives the next flush onto subsequent beacons;
the string-name form marks exactly the named variable. -/
theorem C10_bulk_singleBeacon_amended (st : State) (o : JSObj) (v w : JSVal)
    (k n : String) (env : Env)
    (hko : k ≠ "[object Object]") (hks : k ∉ st.singleBeaconVars)
    (hhas : objHas (addVar st (AddVarName.obj o) v true).vars k = true)
    (hk1 : k ≠ "qt") (hk2 : k ≠ "pgu") (hk3 : k ≠ "r") :
    (addVar st (AddVarName.obj o) v true).singleBeaconVars
      = sbAdd st.singleBeaconVars "[object Object]" ∧
    k ∉ (addVar st (AddVarName.obj o) v true).singleBeaconVars ∧
    (addVar st (AddVarName.str n) w true).singleBeaconVars
      = sbAdd st.singleBeaconVars n ∧
    objHas (real_sendBeacon env (addVar st (AddVarName.obj o) v true)).2.vars k
      = true := by
  have h1 : (addVar st (AddVarName.obj o) v true).singleBeaconVars
      = sbAdd st.singleBeaconVars "[object Object]" := rfl
  have h2 : k ∉ (addVar st (AddVarName.obj o) v true).singleBeaconVars := by
    rw [h1, mem_sbAdd]
    rintro (ha | he)
    · exact hks ha
    · exact hko he
  refine ⟨h1, h2, rfl, ?_⟩
  exact objHas_after_flush env _ k hk1 hk2 hk3 h2 hhas

/-- C10 witness: the amended theorem on a one-pair bulk object; the var
ck is unmarked and survives the flush. -/
theorem C10_bulk_singleBeacon_amended_witness :
    (addVar initState (AddVarName.obj [("ck", JSVal.str "x")])
        JSVal.undef true).singleBeaconVars
      = sbAdd initState.singleBeaconVars "[object Object]" ∧
    "ck" ∉ (addVar initState (AddVarName.obj [("ck", JSVal.str "x")])
        JSVal.undef true).singleBeaconVars ∧
    (addVar initState (AddVarName.str "sv") (JSVal.num 5) true).singleBeaconVars
      = sbAdd initState.singleBeaconVars "sv" ∧
    objHas (real_sendBeacon envBase
      (addVar initState (AddVarName.obj [("ck", JSVal.str "x")])
        JSVal.undef true)).2.vars "ck" = true :=
  C10_bulk_singleBeacon_amended initState [("ck", JSVal.str "x")]
    JSVal.undef (JSVal.num 5) "ck" "sv" envBase
    (by decide) (by decide) (by decide) (by decide) (by decide) (by decide)

end Boomerang
